import Mathlib

/-!
Verification of the Yargıtay decision-search client
(`turkishhelper/Decisions/views.py`, class `YargitaySearchView`).

The Python code is shallowly embedded: JSON values become an inductive
`Json` type, the handful of Python container primitives the code uses
(`in`, subscript, `.get`, `len`, truthiness, `str.strip`, `str.upper`,
substring test) become explicit functions returning `Except PyErr _`
where Python would raise, and the stateful rate governor becomes
explicit state passing.  Timing behaviour (`time.time`, `time.sleep`)
is idealised over ℚ: a sleep of `s` seconds advances the clock by
exactly `s`.
-/

/-- JSON values, as decoded by `response.json()` / `json.loads`.
Numbers are modelled as integers (all numeric fields the code touches
are integral); JSON `null` doubles as Python `None`. -/
inductive Json where
  | null
  | bool (b : Bool)
  | num (n : Int)
  | str (s : String)
  | arr (xs : List Json)
  | obj (fields : List (String × Json))

/-- The Python exceptions the embedded fragment can raise and does not
catch inside `search_decisions` or the handler hot path. -/
inductive PyErr where
  | typeError
  | attributeError
  | keyError
deriving DecidableEq

/-- Does `hay` start with `needle`? (helper for the substring test). -/
def charsStartWith : List Char → List Char → Bool
  | _, [] => true
  | [], _ :: _ => false
  | a :: as, b :: bs => a == b && charsStartWith as bs

/-- Python `needle in hay` for strings: substring containment. -/
def charsContain : List Char → List Char → Bool
  | [], needle => needle.isEmpty
  | a :: as, needle => charsStartWith (a :: as) needle || charsContain as needle

/-- Python `str.upper()` (ASCII letters; the marker phrase is ASCII). -/
def upperChars (cs : List Char) : List Char := cs.map Char.toUpper

/-- Characters stripped by Python `str.strip()` (ASCII whitespace). -/
def isPySpace (c : Char) : Bool :=
  c == ' ' || c == '\t' || c == '\n' || c == '\r' || c == '\x0b' || c == '\x0c'

/-- Python `str.strip()`. -/
def pyStrip (s : String) : String :=
  ⟨((s.toList.dropWhile isPySpace).reverse.dropWhile isPySpace).reverse⟩

/-- Lookup in a Python dict (keys are unique in a parsed JSON object). -/
def dictGet (fs : List (String × Json)) (k : String) : Option Json :=
  (fs.find? (fun p => p.1 == k)).map (fun p => p.2)

/-- Python dict assignment `d[k] = v`: overwrite in place, else append. -/
def dictSet (fs : List (String × Json)) (k : String) (v : Json) : List (String × Json) :=
  if fs.any (fun p => p.1 == k) then
    fs.map (fun p => if p.1 == k then (p.1, v) else p)
  else fs ++ [(k, v)]

/-- Python `k in v` for a string `k`: key test on dicts, substring test
on strings, element test on lists, `TypeError` otherwise. -/
def pyContains (k : String) : Json → Except PyErr Bool
  | .obj fs => .ok (dictGet fs k).isSome
  | .str s => .ok (charsContain s.toList k.toList)
  | .arr xs => .ok (xs.any (fun v => match v with | .str s => s == k | _ => false))
  | _ => .error .typeError

/-- Python `v[k]` for a string `k`: dict lookup (`KeyError` when
absent), `TypeError` on any non-dict. -/
def pySubscript (v : Json) (k : String) : Except PyErr Json :=
  match v with
  | .obj fs =>
    match dictGet fs k with
    | some x => .ok x
    | none => .error .keyError
  | _ => .error .typeError

/-- Python `v.get(k, default)`: `AttributeError` on non-dicts. -/
def pyGetD (v : Json) (k : String) (d : Json) : Except PyErr Json :=
  match v with
  | .obj fs => .ok ((dictGet fs k).getD d)
  | _ => .error .attributeError

/-- Python `v.get(k)` (default `None`). -/
def pyGet (v : Json) (k : String) : Except PyErr Json := pyGetD v k .null

/-- Python `len(v)`; `TypeError` on unsized values. -/
def pyLen : Json → Except PyErr Nat
  | .arr xs => .ok xs.length
  | .str s => .ok s.length
  | .obj fs => .ok fs.length
  | _ => .error .typeError

/-- Python truthiness of a decoded JSON value. -/
def pyTruthy : Json → Bool
  | .null => false
  | .bool b => b
  | .num n => n != 0
  | .str s => !(s == "")
  | .arr xs => !xs.isEmpty
  | .obj fs => !fs.isEmpty

/-! ## Rate governor (`_rate_limit`, `_handle_rate_limit`) -/

/-- Line 47 of `_handle_rate_limit`: the rate-limit detection test
`response.status_code == 429 or "TOO MANY REQUESTS" in response.text.upper()`. -/
def is_rate_limited (status : Nat) (text : String) : Bool :=
  status == 429 || charsContain (upperChars text.toList) "TOO MANY REQUESTS".toList

/-- Spec-side notion: case-insensitive substring containment. -/
def contains_case_insensitive (hay needle : String) : Bool :=
  charsContain (upperChars hay.toList) (upperChars needle.toList)

/-- The marker phrase named by the spec. -/
def rate_limit_marker : String := "too many requests"

/-- The base retry delay set in `__init__` (`self.retry_delay = 10`)
and restored on every non-rate-limited response. -/
def base_retry_delay : Nat := 10

/-- Observable effect of one `_handle_rate_limit(response)` call:
whether it returned `True`, how long it slept (if at all), and the
value of `self.retry_delay` afterwards. -/
structure RateLimitOutcome where
  limited : Bool
  slept : Option Nat
  newDelay : Nat

/-- Lines 45-54, `_handle_rate_limit`: on a rate-limited response it
sleeps `retry_delay` seconds, then doubles `retry_delay` and returns
`True`; otherwise it resets `retry_delay` to 10 and returns `False`. -/
def handle_rate_limit (retry_delay : Nat) (status : Nat) (text : String) : RateLimitOutcome :=
  if is_rate_limited status text then
    { limited := true, slept := some retry_delay, newDelay := retry_delay * 2 }
  else
    { limited := false, slept := none, newDelay := 10 }

/-- The value of `self.retry_delay` after feeding a sequence of responses (status,
body text) through `_handle_rate_limit`, starting from delay `d`. -/
def run_rate_limit_responses (d : Nat) : List (Nat × String) → Nat
  | [] => d
  | r :: rs => run_rate_limit_responses (handle_rate_limit d r.1 r.2).newDelay rs

/-- The floor `self.min_delay = 2.0` from `__init__`. -/
def min_delay : ℚ := 2

/-- Observable effect of one `_rate_limit()` call under the idealised
clock: how long it slept and the recorded `self.last_request_time`
afterwards (which is also the moment the caller proceeds to dispatch). -/
structure ThrottleOutcome where
  sleepTime : ℚ
  newLast : ℚ

/-- Lines 35-43, `_rate_limit`: if less than `min_delay` seconds have
elapsed since `last_request_time`, sleep `min_delay - elapsed + jitter`
with `jitter = random.uniform(0, 1.0)`; then record the current time.
`now` is the value of `time.time()` on entry; sleeping `s` seconds is
idealised as advancing the clock by exactly `s`. -/
def rate_limit (last_request_time now jitter : ℚ) : ThrottleOutcome :=
  let time_since_last := now - last_request_time
  if time_since_last < min_delay then
    let s := min_delay - time_since_last + jitter
    { sleepTime := s, newLast := now + s }
  else
    { sleepTime := 0, newLast := now }

/-! ## Page-size coercion (`post`, lines 211-217; identically in `get`
and `search_decisions_api`) -/

/-- The allowed set `valid_page_sizes = [10, 25, 50, 100]`. -/
def valid_page_sizes : List Int := [10, 25, 50, 100]

/-- Python `min(xs, key=key)`: the first element attaining the minimal
key, scanning left to right. -/
def py_min_by (key : Int → Nat) : List Int → Option Int
  | [] => none
  | x :: xs => some (xs.foldl (fun best y => if key y < key best then y else best) x)

/-- Python `min(valid_page_sizes, key=lambda x: abs(x - page_size))`.  The
list is non-empty, so the `getD 0` default is never taken. -/
def closest_page_size (page_size : Int) : Int :=
  (py_min_by (fun x => (x - page_size).natAbs) valid_page_sizes).getD 0

/-- Lines 213-217: replace `page_size` by the closest valid size when
it is not already a member of `valid_page_sizes`. -/
def normalize_page_size (page_size : Int) : Int :=
  if valid_page_sizes.contains page_size then page_size else closest_page_size page_size

/-! ## Response classification (`search_decisions`, lines 97-125) -/

/-- The tuple returned by `search_decisions`: `(decisions,
total_records, filtered_records)`.  The fields keep the raw decoded
values the code returns. -/
structure SearchTriple where
  decisions : Json
  total_records : Json
  filtered_records : Json

/-- The `([], 0, 0)` tuple returned on every error path. -/
def empty_search_result : SearchTriple := ⟨.arr [], .num 0, .num 0⟩

/-- Line 100: evaluation of `"data" in data and "data" in data["data"]`
with Python short-circuiting, including the exceptions it can raise. -/
def success_shape_check (data : Json) : Except PyErr Bool :=
  match pyContains "data" data with
  | .error e => .error e
  | .ok false => .ok false
  | .ok true =>
    match pySubscript data "data" with
    | .error e => .error e
    | .ok inner => pyContains "data" inner

/-- Lines 100-118 of `search_decisions`: classify a decoded response
body.  The success-shape branch is checked first; the two metadata
branches and the fallthrough all return the empty tuple.  Exceptions
raised here (e.g. `TypeError` from `"data" in data["data"]` when
`data["data"]` is not a container) are NOT caught by the surrounding
`except` clauses, which only catch `RequestException` and
`JSONDecodeError`. -/
def classify_search_response (data : Json) : Except PyErr SearchTriple :=
  match success_shape_check data with
  | .error e => .error e
  | .ok true =>
    match pySubscript data "data" with
    | .error e => .error e
    | .ok inner =>
      match pySubscript inner "data" with
      | .error e => .error e
      | .ok decisions =>
        match pyLen decisions with
        | .error e => .error e
        | .ok n =>
          match pyGetD inner "recordsTotal" (.num n), pyGetD inner "recordsFiltered" (.num n) with
          | .ok total, .ok filtered => .ok ⟨decisions, total, filtered⟩
          | .error e, _ => .error e
          | _, .error e => .error e
  | .ok false =>
    match pyContains "metadata" data with
    | .error e => .error e
    | .ok false => .ok empty_search_result
    | .ok true =>
      match pyGetD data "metadata" (.obj []) with
      | .error e => .error e
      | .ok m =>
        match pyGet m "FMTY" with
        | .error e => .error e
        | .ok fmty =>
          if (match fmty with | .str s => s == "ERROR" | _ => false) then
            match pyGetD m "FMTE" (.str "Unknown error") with
            | .error e => .error e
            | .ok _ => .ok empty_search_result
          else if (match fmty with | .null => false | _ => true) then
            match pyGetD m "FMTE" (.str "Unknown error") with
            | .error e => .error e
            | .ok _ => .ok empty_search_result
          else
            .ok empty_search_result

/-- Outcome of one upstream HTTP POST, as seen by `search_decisions`:
either a `requests.exceptions.RequestException` (connection error,
timeout), or a response with a status code, a body text, and the JSON
decoding of the body (`none` when the body is malformed, in which case
`response.json()` raises `JSONDecodeError`). -/
inductive HttpOutcome where
  | transportError
  | response (status : Nat) (text : String) (body : Option Json)

/-- What one iteration of `search_decisions` does with a response:
retry (rate-limit branch), return a tuple, or raise an uncaught
exception. -/
inductive SearchStep where
  | retry
  | done (result : SearchTriple)
  | raised (e : PyErr)

/-- Lines 85-125 of `search_decisions` for a single upstream outcome:
transport errors and `JSONDecodeError` are caught and yield the empty
tuple; a rate-limited response triggers the retry branch (line 92);
`raise_for_status()` raises `HTTPError` (a `RequestException`, caught
below) for 4xx/5xx statuses; otherwise the decoded body is
classified. -/
def search_decisions_step : HttpOutcome → SearchStep
  | .transportError => .done empty_search_result
  | .response status text body =>
    if is_rate_limited status text then .retry
    else if 400 ≤ status ∧ status < 600 then .done empty_search_result
    else
      match body with
      | none => .done empty_search_result
      | some data =>
        match classify_search_response data with
        | .ok t => .done t
        | .error e => .raised e

/-! ## Content enrichment loop (`post`, lines 223-229; identically in
`get` and `search_decisions_api`).  `fetch_document_content` is
abstracted as an oracle `fetch : Json → Option String` giving, for each
`id` value, the content string the call would return (`none` when the
fetch fails and returns Python `None`). -/

/-- Lines 224-229, one loop iteration and the trace of
`fetch_document_content` calls it makes: `decision_id =
decision.get("id")`; only a truthy id triggers a fetch; only truthy
(non-empty) content is attached under `"document_content"`.  A
non-dict decision raises `AttributeError` at `.get`. -/
def fetch_content_loop (fetch : Json → Option String) : List Json → Except PyErr (List Json × List Json)
  | [] => .ok ([], [])
  | d :: rest =>
    match d with
    | .obj fs =>
      let decision_id := (dictGet fs "id").getD .null
      let step :=
        if pyTruthy decision_id then
          match fetch decision_id with
          | some content =>
            (if pyTruthy (.str content) then
               Json.obj (dictSet fs "document_content" (.str content))
             else Json.obj fs, [decision_id])
          | none => (Json.obj fs, [decision_id])
        else (Json.obj fs, ([] : List Json))
      match fetch_content_loop fetch rest with
      | .error e => .error e
      | .ok (ds, calls) => .ok (step.1 :: ds, step.2 ++ calls)
    | _ => .error .attributeError

/-- Spec-side: the `id` of a decision when it is present and truthy. -/
def truthy_id : Json → Option Json
  | .obj fs =>
    let decision_id := (dictGet fs "id").getD .null
    if pyTruthy decision_id then some decision_id else none
  | _ => none

/-- Spec-side: the enrichment applied to one decision. -/
def enrich_one (fetch : Json → Option String) : Json → Json
  | .obj fs =>
    let decision_id := (dictGet fs "id").getD .null
    if pyTruthy decision_id then
      match fetch decision_id with
      | some content =>
        if pyTruthy (.str content) then Json.obj (dictSet fs "document_content" (.str content))
        else Json.obj fs
      | none => Json.obj fs
    else Json.obj fs
  | j => j

/-- A concrete fetch oracle that always succeeds with "content". -/
def const_fetch : Json → Option String := fun _ => some "content"

/-! ## The POST handler guard (`post`, lines 194-220) -/

/-- Where the POST handler goes after its pure prelude: a 400 response,
a 500 response (an exception reached the generic `except Exception`),
or entry into `search_decisions` with the normalized arguments.
`dispatch` is the first point at which any upstream activity (the
throttle, then the HTTP POST) happens. -/
inductive PostOutcome where
  | badRequest (msg : String)
  | serverError
  | dispatch (keyword : String) (page_number : Int) (page_size : Int) (fetch_content : Bool)

/-- Number of entries into `search_decisions` (hence upstream calls and
rate-governor invocations) each handler outcome performs: a rejected or
failed prelude performs none. -/
def upstream_dispatches : PostOutcome → Nat
  | .dispatch _ _ _ _ => 1
  | _ => 0

/-- Lines 194-220 of `post`, given the parsed JSON request body:
`keyword = data.get("keyword", "").strip()`; empty keyword → 400
"Keyword is required"; then the defaults for `page_number`, `page_size`,
`fetch_content`, the `page_number < 1` clamp and the page-size coercion,
then the call to `search_decisions`.  Non-string keywords and non-
numeric page fields raise (`AttributeError`/`TypeError`), which the
generic `except Exception` turns into a 500. -/
def post_handler (body : Json) : PostOutcome :=
  match pyGetD body "keyword" (.str "") with
  | .error _ => .serverError
  | .ok (.str raw) =>
    let keyword := pyStrip raw
    if keyword == "" then .badRequest "Keyword is required"
    else
      match pyGetD body "page_number" (.num 1), pyGetD body "page_size" (.num 10),
            pyGetD body "fetch_content" (.bool false) with
      | .ok (.num pn), .ok (.num ps), .ok fc =>
        let page_number := if pn < 1 then 1 else pn
        let page_size := normalize_page_size ps
        .dispatch keyword page_number page_size (pyTruthy fc)
      | _, _, _ => .serverError
  | .ok _ => .serverError

/-! ## Helper lemmas -/

/-- Feeding only rate-limited responses through `_handle_rate_limit`
doubles the delay once per response. -/
theorem run_rate_limit_all_limited (rs : List (Nat × String)) :
    ∀ d, (∀ r ∈ rs, is_rate_limited r.1 r.2 = true) →
      run_rate_limit_responses d rs = d * 2 ^ rs.length := by
  induction rs with
  | nil => intro d _; simp [run_rate_limit_responses]
  | cons r rs ih =>
    intro d h
    have hr : is_rate_limited r.1 r.2 = true := h r (by simp)
    have ht : ∀ x ∈ rs, is_rate_limited x.1 x.2 = true := fun x hx => h x (by simp [hx])
    rw [run_rate_limit_responses]
    simp only [handle_rate_limit, hr, if_pos]
    rw [ih _ ht, List.length_cons, pow_succ]
    ring

/-- The retry delay never drops below the base once it starts there. -/
theorem run_rate_limit_lower (rs : List (Nat × String)) :
    ∀ d, base_retry_delay ≤ d → base_retry_delay ≤ run_rate_limit_responses d rs := by
  induction rs with
  | nil => intro d h; simpa [run_rate_limit_responses] using h
  | cons r rs ih =>
    intro d h
    rw [run_rate_limit_responses]
    apply ih
    by_cases hr : is_rate_limited r.1 r.2
    · simp only [handle_rate_limit, hr, if_pos]
      simp only [base_retry_delay] at *
      omega
    · simp [handle_rate_limit, hr, base_retry_delay]

/-- Classification of any body matching the success shape: the
decisions come back verbatim and the two counts default to the number
of decisions when their fields are absent. -/
theorem classify_success_shape (outer d : List (String × Json)) (ds : List Json)
    (h1 : dictGet outer "data" = some (.obj d))
    (h2 : dictGet d "data" = some (.arr ds)) :
    classify_search_response (.obj outer) =
      .ok ⟨.arr ds, (dictGet d "recordsTotal").getD (.num ds.length),
           (dictGet d "recordsFiltered").getD (.num ds.length)⟩ := by
  simp only [classify_search_response, success_shape_check, pyContains, pySubscript,
    pyGetD, pyLen, h1, h2, Option.isSome_some]

/-! ## Claim theorems -/

/-- C1: for every integer `page_size` outside {10, 25, 50, 100}, the
transmitted page size is the member of the set minimizing the absolute
difference to the request, ties broken toward the smaller value (the
first minimum of Python `min` scanning the ascending list). -/
theorem page_size_coercion (ps : Int) (h : valid_page_sizes.contains ps = false) :
    valid_page_sizes.contains (normalize_page_size ps) = true ∧
    (∀ v ∈ valid_page_sizes, (normalize_page_size ps - ps).natAbs ≤ (v - ps).natAbs) ∧
    (∀ v ∈ valid_page_sizes, (v - ps).natAbs = (normalize_page_size ps - ps).natAbs →
      normalize_page_size ps ≤ v) := by
  have hn : normalize_page_size ps = closest_page_size ps := by
    unfold normalize_page_size
    rw [h]
    simp
  rw [hn]
  simp only [closest_page_size, py_min_by, valid_page_sizes, List.foldl, Option.getD]
  refine ⟨?_, ?_, ?_⟩
  · split_ifs <;> decide
  · intro v hv
    fin_cases hv <;> split_ifs <;> omega
  · intro v hv
    fin_cases hv <;> split_ifs <;> omega

/-- C1 witness: the requested value 75 is equidistant between 50 and
100 and coerces to the smaller member 50. -/
theorem page_size_coercion_witness :
    valid_page_sizes.contains (75 : Int) = false ∧
    normalize_page_size 75 = 50 ∧
    (∀ v ∈ valid_page_sizes, (normalize_page_size 75 - 75).natAbs ≤ (v - 75).natAbs) ∧
    (∀ v ∈ valid_page_sizes, (v - 75).natAbs = (normalize_page_size 75 - 75).natAbs →
      normalize_page_size 75 ≤ v) :=
  ⟨by decide, by decide, (page_size_coercion 75 (by decide)).2.1,
    (page_size_coercion 75 (by decide)).2.2⟩

/-- C2: on a rate-limited response the governor sleeps
`current_retry_delay` seconds and then exactly doubles it; on a
non-rate-limited response it resets the delay to the base 10; hence n
consecutive rate-limited responses starting from the base leave the
delay at `10 * 2 ^ n`. -/
theorem retry_delay_backoff :
    (∀ d status text, is_rate_limited status text = true →
      handle_rate_limit d status text = ⟨true, some d, d * 2⟩) ∧
    (∀ d status text, is_rate_limited status text = false →
      handle_rate_limit d status text = ⟨false, none, base_retry_delay⟩) ∧
    (∀ rs : List (Nat × String), (∀ r ∈ rs, is_rate_limited r.1 r.2 = true) →
      run_rate_limit_responses base_retry_delay rs = base_retry_delay * 2 ^ rs.length) := by
  refine ⟨?_, ?_, ?_⟩
  · intro d s t h; simp [handle_rate_limit, h]
  · intro d s t h; simp [handle_rate_limit, h, base_retry_delay]
  · intro rs h; exact run_rate_limit_all_limited rs base_retry_delay h

/-- C2 witness: two consecutive rate-limited responses (one by status
429, one by marker text) take the delay from 10 to 40, and a
non-rate-limited response resets it. -/
theorem retry_delay_backoff_witness :
    (∀ r ∈ ([(429, "x"), (200, "TOO MANY REQUESTS")] : List (Nat × String)),
      is_rate_limited r.1 r.2 = true) ∧
    run_rate_limit_responses base_retry_delay [(429, "x"), (200, "TOO MANY REQUESTS")] =
      base_retry_delay * 2 ^ 2 ∧
    handle_rate_limit 40 200 "ok" = ⟨false, none, base_retry_delay⟩ :=
  ⟨by decide, retry_delay_backoff.2.2 _ (by decide), retry_delay_backoff.2.1 40 200 "ok" (by decide)⟩

/-- C5: the rate-limit detection predicate is true exactly when the
status code is 429 or the body text contains "too many requests"
case-insensitively; it is a pure function of the two arguments. -/
theorem rate_limit_detection (status : Nat) (text : String) :
    is_rate_limited status text = true ↔
      status = 429 ∨ contains_case_insensitive text rate_limit_marker = true := by
  have hm : upperChars rate_limit_marker.toList = "TOO MANY REQUESTS".toList := by decide
  unfold is_rate_limited contains_case_insensitive
  rw [hm]
  simp [Bool.or_eq_true]

/-- C6: `current_retry_delay` never drops below the base delay in any
reachable state, is non-decreasing across a rate-limited response, and
is reset to the base by every non-rate-limited response. -/
theorem retry_delay_invariant :
    (∀ rs : List (Nat × String),
      base_retry_delay ≤ run_rate_limit_responses base_retry_delay rs) ∧
    (∀ d status text, is_rate_limited status text = true →
      d ≤ (handle_rate_limit d status text).newDelay) ∧
    (∀ d status text, is_rate_limited status text = false →
      (handle_rate_limit d status text).newDelay = base_retry_delay) := by
  refine ⟨?_, ?_, ?_⟩
  · intro rs; exact run_rate_limit_lower rs base_retry_delay le_rfl
  · intro d s t h; simp [handle_rate_limit, h]; omega
  · intro d s t h; simp [handle_rate_limit, h, base_retry_delay]

/-- C6 witness: the invariant instantiated on a burst followed by a
reset. -/
theorem retry_delay_invariant_witness :
    base_retry_delay ≤ run_rate_limit_responses base_retry_delay [(429, ""), (200, "ok")] ∧
    is_rate_limited 429 "" = true ∧
    10 ≤ (handle_rate_limit 10 429 "").newDelay :=
  ⟨retry_delay_invariant.1 _, by decide, retry_delay_invariant.2.1 10 429 "" (by decide)⟩

/-- C7: when less than `min_delay` has elapsed since the last recorded
dispatch, `_rate_limit` sleeps `min_delay - elapsed + jitter` (jitter
in [0, 1]), so the newly recorded dispatch time is always at least
`min_delay` after the previous one. -/
theorem throttle_min_spacing (last now jitter : ℚ)
    (h1 : last ≤ now) (h2 : 0 ≤ jitter) (h3 : jitter ≤ 1) :
    min_delay ≤ (rate_limit last now jitter).newLast - last ∧
    (now - last < min_delay →
      (rate_limit last now jitter).sleepTime = min_delay - (now - last) + jitter) := by
  constructor
  · simp only [rate_limit, min_delay] at *
    split_ifs with hlt
    · simp only
      linarith
    · simp only
      linarith [not_lt.mp hlt]
  · intro hlt
    simp only [rate_limit]
    rw [if_pos hlt]

/-- C7 witness: a second call 1 second after the first, with jitter
1/2, dispatches 2.5 seconds after the first. -/
theorem throttle_min_spacing_witness :
    (0 : ℚ) ≤ 1 ∧
    (min_delay ≤ (rate_limit 0 1 (1/2)).newLast - 0 ∧
      ((1 : ℚ) - 0 < min_delay →
        (rate_limit 0 1 (1/2)).sleepTime = min_delay - ((1 : ℚ) - 0) + 1/2)) :=
  ⟨by norm_num, throttle_min_spacing 0 1 (1/2) (by norm_num) (by norm_num) (by norm_num)⟩

/-- C3 counterexample: a body that matches the success shape AND
carries `metadata.FMTY = "ERROR"` returns the populated success
result, not the empty one the claim demands for every body with that
envelope. -/
theorem error_envelope_counterexample :
    classify_search_response (.obj [("data", .obj [("data", .arr [.obj [("id", .str "7")]])]),
        ("metadata", .obj [("FMTY", .str "ERROR")])]) =
      .ok ⟨.arr [.obj [("id", .str "7")]], .num 1, .num 1⟩ ∧
    Json.arr [.obj [("id", .str "7")]] ≠ Json.arr [] :=
  ⟨rfl, by simp⟩

/-- C3 amended: for a JSON-object body whose success-shape check
evaluates to false and whose `metadata` member is an object with
non-null `FMTY`, search returns the empty result without raising; the
same empty result is returned for transport errors, malformed bodies
and 4xx/5xx statuses (outside the rate-limit branch).  Bodies that
also match the success shape return the populated success result
instead, and bodies where the shape checks themselves raise (e.g. a
non-container `data` member) propagate an exception. -/
theorem error_envelope_empty :
    (∀ fs m, success_shape_check (.obj fs) = .ok false →
      dictGet fs "metadata" = some (.obj m) →
      (dictGet m "FMTY").getD .null ≠ .null →
      classify_search_response (.obj fs) = .ok empty_search_result) ∧
    search_decisions_step .transportError = .done empty_search_result ∧
    (∀ status text, is_rate_limited status text = false →
      search_decisions_step (.response status text none) = .done empty_search_result) ∧
    (∀ status text body, is_rate_limited status text = false → 400 ≤ status → status < 600 →
      search_decisions_step (.response status text body) = .done empty_search_result) := by
  refine ⟨?_, rfl, ?_, ?_⟩
  · intro fs m hsucc hmeta _
    simp only [classify_search_response, hsucc, pyContains, hmeta, Option.isSome_some,
      pyGet, pyGetD, Option.getD_some]
    split_ifs <;> rfl
  · intro status text h
    simp only [search_decisions_step, h, Bool.false_eq_true, if_false]
    split_ifs <;> rfl
  · intro status text body h h4 h6
    have hc : 400 ≤ status ∧ status < 600 := ⟨h4, h6⟩
    simp [search_decisions_step, h, hc]

/-- C3 witness: a pure error envelope yields the empty result. -/
theorem error_envelope_empty_witness :
    success_shape_check (.obj [("metadata", Json.obj [("FMTY", Json.str "ERROR")])]) = .ok false ∧
    classify_search_response (.obj [("metadata", Json.obj [("FMTY", Json.str "ERROR")])]) =
      .ok empty_search_result :=
  ⟨rfl, error_envelope_empty.1 _ [("FMTY", Json.str "ERROR")] rfl rfl
    (fun hc => Json.noConfusion hc)⟩

/-- C4: a keyword that is empty after stripping whitespace is rejected
with HTTP 400 "Keyword is required" during the handler prelude, so
`search_decisions` — and with it the rate governor and any upstream
request — is never reached (the dispatch counter stays at zero). -/
theorem keyword_required (fs : List (String × Json)) (k : String)
    (hk : (dictGet fs "keyword").getD (.str "") = .str k)
    (hs : pyStrip k = "") :
    post_handler (.obj fs) = .badRequest "Keyword is required" ∧
    upstream_dispatches (post_handler (.obj fs)) = 0 := by
  have hp : post_handler (.obj fs) = .badRequest "Keyword is required" := by
    simp only [post_handler, pyGetD, hk]
    simp [hs]
  exact ⟨hp, by rw [hp]; rfl⟩

/-- C4 witness: a whitespace-only keyword is rejected with no
dispatch. -/
theorem keyword_required_witness :
    pyStrip " \t " = "" ∧
    post_handler (.obj [("keyword", Json.str " \t ")]) = .badRequest "Keyword is required" ∧
    upstream_dispatches (post_handler (.obj [("keyword", Json.str " \t ")])) = 0 :=
  ⟨rfl, (keyword_required [("keyword", Json.str " \t ")] " \t " rfl rfl).1,
    (keyword_required [("keyword", Json.str " \t ")] " \t " rfl rfl).2⟩

/-- C8 counterexample: a success envelope with 3 decisions,
`recordsTotal = 42` and no `recordsFiltered` yields
`filtered_records = 3`, not the 42 the spec scenario expects. -/
theorem filtered_records_counterexample :
    classify_search_response (.obj [("data", .obj [("data",
        .arr [.obj [("id", .str "1")], .obj [("id", .str "2")], .obj [("id", .str "3")]]),
        ("recordsTotal", .num 42)])]) =
      .ok ⟨.arr [.obj [("id", .str "1")], .obj [("id", .str "2")], .obj [("id", .str "3")]],
           .num 42, .num 3⟩ ∧
    Json.num 3 ≠ Json.num 42 :=
  ⟨rfl, by simp⟩

/-- C8 amended: under the recognized success envelope the decisions
come back in upstream order, and when `recordsFiltered` is absent,
`filtered_records` defaults to the length of the decisions list (3
decisions, `recordsTotal = 42` → totals (42, 3), not (42, 42)). -/
theorem filtered_records_default (outer d : List (String × Json)) (ds : List Json) (t : Json)
    (h1 : dictGet outer "data" = some (.obj d))
    (h2 : dictGet d "data" = some (.arr ds))
    (h3 : dictGet d "recordsTotal" = some t)
    (h4 : dictGet d "recordsFiltered" = none) :
    classify_search_response (.obj outer) = .ok ⟨.arr ds, t, .num ds.length⟩ := by
  rw [classify_success_shape outer d ds h1 h2, h3, h4]
  rfl

/-- C8 witness: the spec scenario evaluated on the code. -/
theorem filtered_records_default_witness :
    classify_search_response (.obj [("data", .obj [("data",
        .arr [.obj [("id", .str "1")], .obj [("id", .str "2")], .obj [("id", .str "3")]]),
        ("recordsTotal", .num 42)])]) =
      .ok ⟨.arr [.obj [("id", .str "1")], .obj [("id", .str "2")], .obj [("id", .str "3")]],
           .num 42, .num 3⟩ :=
  filtered_records_default _ _ _ _ rfl rfl rfl rfl

/-- C9 counterexample: a non-empty result set with one decision that
has no `id` triggers zero `fetch_document_content` calls, not the one
call per decision the claim demands. -/
theorem enrichment_counterexample :
    fetch_content_loop const_fetch [Json.obj [("name", Json.str "x")]] =
      .ok ([Json.obj [("name", Json.str "x")]], []) ∧
    ([] : List Json).length ≠ [Json.obj [("name", Json.str "x")]].length :=
  ⟨rfl, by decide⟩

/-- C9 amended: the enrichment loop calls `fetch_document_content`
exactly once for each decision whose `id` is present and truthy,
sequentially in result order (the call trace is the in-order list of
those ids); truthy fetched content is attached as
`document_content`, while decisions without a truthy id are skipped
with no call. -/
theorem enrichment_per_decision (fetch : Json → Option String) (ds : List Json)
    (h : ∀ d ∈ ds, ∃ fs, d = Json.obj fs) :
    fetch_content_loop fetch ds = .ok (ds.map (enrich_one fetch), ds.filterMap truthy_id) := by
  induction ds with
  | nil => rfl
  | cons d rest ih =>
    obtain ⟨fs, rfl⟩ := h d (by simp)
    have ht : ∀ x ∈ rest, ∃ gs, x = Json.obj gs := fun x hx => h x (by simp [hx])
    simp only [fetch_content_loop, ih ht, List.map_cons, List.filterMap_cons, enrich_one,
      truthy_id]
    by_cases hid : pyTruthy ((dictGet fs "id").getD .null)
    · simp only [hid, if_pos]
      cases hfetch : fetch ((dictGet fs "id").getD .null) with
      | none => simp
      | some c =>
        by_cases hc : pyTruthy (.str c)
        · simp [hc]
        · simp [hc]
    · simp [hid]

/-- C9 witness: two decisions, only the first with an id: one call, in
order, with the content attached to the first decision only. -/
theorem enrichment_per_decision_witness :
    fetch_content_loop const_fetch
        [Json.obj [("id", Json.str "11")], Json.obj [("name", Json.str "x")]] =
      .ok ([Json.obj [("id", Json.str "11")], Json.obj [("name", Json.str "x")]].map
             (enrich_one const_fetch),
           [Json.obj [("id", Json.str "11")], Json.obj [("name", Json.str "x")]].filterMap
             truthy_id) :=
  enrichment_per_decision const_fetch _ (by intro d hd; fin_cases hd <;> exact ⟨_, rfl⟩)

/-- C10: the success-shape check takes precedence over the error
envelope: a body carrying both `data.data` and `metadata.FMTY =
"ERROR"` is classified by the success branch, with the decisions and
counts taken from the success payload. -/
theorem success_shape_precedence (outer d m : List (String × Json)) (ds : List Json)
    (h1 : dictGet outer "data" = some (.obj d))
    (h2 : dictGet d "data" = some (.arr ds))
    (h3 : dictGet outer "metadata" = some (.obj m))
    (h4 : dictGet m "FMTY" = some (.str "ERROR")) :
    classify_search_response (.obj outer) =
      .ok ⟨.arr ds, (dictGet d "recordsTotal").getD (.num ds.length),
           (dictGet d "recordsFiltered").getD (.num ds.length)⟩ :=
  classify_success_shape outer d ds h1 h2

/-- C10 witness: precedence evaluated on a concrete dual-envelope
body. -/
theorem success_shape_precedence_witness :
    classify_search_response (.obj [("data", .obj [("data", .arr [.obj [("id", .str "7")]])]),
        ("metadata", .obj [("FMTY", .str "ERROR")])]) =
      .ok ⟨.arr [.obj [("id", .str "7")]], .num 1, .num 1⟩ :=
  success_shape_precedence
    [("data", Json.obj [("data", Json.arr [Json.obj [("id", Json.str "7")]])]),
     ("metadata", Json.obj [("FMTY", Json.str "ERROR")])]
    [("data", Json.arr [Json.obj [("id", Json.str "7")]])]
    [("FMTY", Json.str "ERROR")]
    [Json.obj [("id", Json.str "7")]] rfl rfl rfl rfl




